import Mathlib

/-!
Shallow embedding of `src/tankwar/function.js` (Tank Combat feature helpers).

JavaScript numbers are modelled as `ℚ`; the external collaborator functions
(`angleTo`, `angDiff`, `hasLineOfSight`, `navWaypoint`, `distanceToWall`,
`Math.hypot`, `Math.random`, the actor's `updateMovement`/`canFire`) are
modelled as fields of an environment record, since they live outside this
repository.  The AI controller reads only an actor's `x`, `y`, `angle`, so the
actor is the record `Enemy`; its externally-owned mutation by `updateMovement`
is the abstract function `Env.updateMovement`, and `canFire()` is the per-tick
boolean `Env.canFire`.  `fire()` returns a bullet and touches only
actor-external weapon state, so a tick records how many times it was invoked
(`fireCount`).
-/

namespace TankWar

/-- `clamp(v, a, b) = Math.max(a, Math.min(b, v))` from function.js line 280. -/
def clampJ (v a b : ℚ) : ℚ := max a (min b v)

/-- The fields of the AI-controlled actor that the controller reads. -/
structure Enemy where
  x : ℚ
  y : ℚ
  angle : ℚ
  deriving Repr, DecidableEq

/-- Per-enemy AI state record: `{ hasSight, holdFire, unstick, unstickDir,
progress, lastX, lastY }` created by `getState` (function.js line 200). -/
structure AIState where
  hasSight : Bool
  holdFire : ℚ
  unstick : ℚ
  unstickDir : ℤ
  progress : ℚ
  lastX : ℚ
  lastY : ℚ
  deriving Repr, DecidableEq

/-- The fresh state `getState` installs for an enemy seen for the first time. -/
def initState (e : Enemy) : AIState :=
  { hasSight := false, holdFire := 0, unstick := 0, unstickDir := 0,
    progress := 0, lastX := e.x, lastY := e.y }

/-- Collaborator bridge from main.js plus the per-tick results of the
external primitives (`Math.random()` draw, actor `canFire()`). -/
structure Env where
  playerX : ℚ
  playerY : ℚ
  angleTo : ℚ → ℚ → ℚ → ℚ → ℚ
  angDiff : ℚ → ℚ → ℚ
  hasLineOfSight : ℚ → ℚ → ℚ → ℚ → Bool
  navWaypoint : ℚ → ℚ → Option (ℚ × ℚ)
  distanceToWall : ℚ → ℚ → ℚ → ℚ → ℚ
  hypot : ℚ → ℚ → ℚ
  rand : ℚ
  canFire : Bool
  updateMovement : ℚ → Bool → Bool → Bool → Bool → Enemy → Enemy

/-- Lines 209-211: hold-fire edge trigger, sight memory, timer decrement. -/
def holdFirePhase (sight : Bool) (rand dt : ℚ) (st : AIState) : AIState :=
  let st1 := if sight && !st.hasSight then { st with holdFire := 0.9 + rand * 0.7 } else st
  let st2 := { st1 with hasSight := sight }
  if st2.holdFire > 0 then { st2 with holdFire := st2.holdFire - dt } else st2

/-- Lines 217-222: steering target selection (waypoint when no sight). -/
def steerTarget (env : Env) (e : Enemy) (sight : Bool) (targetAng : ℚ) : ℚ :=
  if !sight then
    match env.navWaypoint e.x e.y with
    | some wp => env.angleTo e.x e.y wp.1 wp.2
    | none => targetAng
  else targetAng

/-- Lines 223-226: steering scalar `steer + avoid + panic`. -/
def steerValue (env : Env) (e : Enemy) (steerTargetAng leftFeel rightFeel fwdFeel : ℚ) : ℚ :=
  let steer := clampJ (env.angDiff e.angle steerTargetAng) (-0.8) 0.8
  let avoid := clampJ ((rightFeel - leftFeel) * 0.005) (-0.7) 0.7
  let panic := if fwdFeel < 40 then (if leftFeel < rightFeel then (0.7 : ℚ) else -0.7) else 0
  steer + avoid + panic

/-- Line 234: progress accumulation / reset. -/
def progressPhase (dt moved fwdFeel : ℚ) (goForward : Bool) (st : AIState) : AIState :=
  if goForward = true ∧ moved < 8 * dt ∧ fwdFeel < 50 then
    { st with progress := st.progress + dt }
  else
    { st with progress := 0 }

/-- Lines 235-239: unstick-maneuver trigger. -/
def unstickTrigger (leftFeel rightFeel : ℚ) (st : AIState) : AIState :=
  if st.progress > 0.6 then
    { st with unstick := 0.5,
              unstickDir := if leftFeel < rightFeel then 1 else -1,
              progress := 0 }
  else st

/-- The argument tuple of one `enemy.updateMovement(dt, tl, tr, fwd, back)` call. -/
structure MoveCall where
  dt : ℚ
  turnLeft : Bool
  turnRight : Bool
  goForward : Bool
  goBackward : Bool
  deriving Repr, DecidableEq

/-- Lines 240-245: unstick override vs normal steering movement. -/
def movePhase (dt fwdFeel : ℚ) (turnLeft turnRight goForward goBackward : Bool)
    (st : AIState) : AIState × MoveCall :=
  if st.unstick > 0 then
    ({ st with unstick := st.unstick - dt },
     ⟨dt, decide (st.unstickDir < 0), decide (st.unstickDir > 0),
      decide (fwdFeel > 30), decide (fwdFeel ≤ 20)⟩)
  else
    (st, ⟨dt, turnLeft, turnRight, goForward, goBackward⟩)

/-- Everything one `updateOne(dt, enemy)` call produced. -/
structure TickResult where
  st : AIState
  enemy : Enemy
  moveCall : MoveCall
  fireCount : ℕ
  deriving Repr

/-- `updateOne(dt, enemy)` (function.js lines 204-251). -/
def updateOne (env : Env) (dt : ℚ) (enemy : Enemy) (st0 : AIState) : TickResult :=
  let targetAng := env.angleTo enemy.x enemy.y env.playerX env.playerY
  let diff : ℚ := env.angDiff enemy.angle targetAng
  let sight : Bool := env.hasLineOfSight enemy.x enemy.y env.playerX env.playerY
  let stA := holdFirePhase sight env.rand dt st0
  let leftFeel := env.distanceToWall enemy.x enemy.y (enemy.angle - 0.8) 180
  let rightFeel := env.distanceToWall enemy.x enemy.y (enemy.angle + 0.8) 180
  let fwdFeel := env.distanceToWall enemy.x enemy.y enemy.angle 160
  let steerTargetAng := steerTarget env enemy sight targetAng
  let steer := steerValue env enemy steerTargetAng leftFeel rightFeel fwdFeel
  let turnLeft := decide (steer < -0.06)
  let turnRight := decide (steer > 0.06)
  let goForward := decide (fwdFeel > 24)
  let goBackward := false
  let moved := env.hypot (enemy.x - stA.lastX) (enemy.y - stA.lastY)
  let stB := progressPhase dt moved fwdFeel goForward stA
  let stC := unstickTrigger leftFeel rightFeel stB
  let smc := movePhase dt fwdFeel turnLeft turnRight goForward goBackward stC
  let enemy1 := env.updateMovement smc.2.dt smc.2.turnLeft smc.2.turnRight
    smc.2.goForward smc.2.goBackward enemy
  let stD : AIState := { smc.1 with lastX := enemy1.x, lastY := enemy1.y }
  let fireCount : ℕ :=
    if sight = true ∧ stD.holdFire ≤ 0 ∧ env.canFire = true ∧ |diff| < (0.15 : ℚ) then 1 else 0
  { st := stD, enemy := enemy1, moveCall := smc.2, fireCount := fireCount }

/-- One step of the `updateAllAI` loop body applied to a managed pair. -/
def stepAgent (env : Env) (dt : ℚ) (p : Enemy × AIState) : Enemy × AIState :=
  let r := updateOne env dt p.1 p.2
  (r.enemy, r.st)

/-- `updateAllAI(dt)` (function.js lines 253-255): `for (const e of enemies) updateOne(dt, e)`. -/
def updateAllAI (env : Env) (dt : ℚ) : List (Enemy × AIState) → List (Enemy × AIState)
  | [] => []
  | a :: rest => stepAgent env dt a :: updateAllAI env dt rest

/-- The AI state right before the movement branch of `updateOne`: after the
hold-fire phase (lines 209-211), the progress bookkeeping (line 234) and the
unstick trigger (lines 235-239).  Definitionally the state `updateOne` feeds
into `movePhase`. -/
def preMoveState (env : Env) (dt : ℚ) (e : Enemy) (s : AIState) : AIState :=
  let sight : Bool := env.hasLineOfSight e.x e.y env.playerX env.playerY
  let stA := holdFirePhase sight env.rand dt s
  let leftFeel := env.distanceToWall e.x e.y (e.angle - 0.8) 180
  let rightFeel := env.distanceToWall e.x e.y (e.angle + 0.8) 180
  let fwdFeel := env.distanceToWall e.x e.y e.angle 160
  let goForward := decide (fwdFeel > 24)
  let moved := env.hypot (e.x - stA.lastX) (e.y - stA.lastY)
  unstickTrigger leftFeel rightFeel (progressPhase dt moved fwdFeel goForward stA)

/-- The steering scalar computed by one `updateOne` tick (lines 213-226);
it depends only on the environment and the enemy's pose. -/
def steerOf (env : Env) (e : Enemy) : ℚ :=
  let targetAng := env.angleTo e.x e.y env.playerX env.playerY
  let sight : Bool := env.hasLineOfSight e.x e.y env.playerX env.playerY
  let leftFeel := env.distanceToWall e.x e.y (e.angle - 0.8) 180
  let rightFeel := env.distanceToWall e.x e.y (e.angle + 0.8) 180
  let fwdFeel := env.distanceToWall e.x e.y e.angle 160
  steerValue env e (steerTarget env e sight targetAng) leftFeel rightFeel fwdFeel

/-! Spec-side steering terms, written from the spec's words (§4.1 step 6) to
be compared with the `steerValue` term translated from the code. -/

/-- Spec §4.1 step 6: `base = clamp(angleDifference(enemy.angle,
steerTargetAngle), -0.8, 0.8)`. -/
def specBase (env : Env) (e : Enemy) (steerTargetAng : ℚ) : ℚ :=
  clampJ (env.angDiff e.angle steerTargetAng) (-0.8) 0.8

/-- Spec §4.1 step 6: `avoidance = clamp((rightClearance - leftClearance) *
0.005, -0.7, 0.7)`. -/
def specAvoidance (rightClearance leftClearance : ℚ) : ℚ :=
  clampJ ((rightClearance - leftClearance) * 0.005) (-0.7) 0.7

/-- Spec §4.1 step 6: `panic = +0.7` when `forwardClearance < 40` and
`leftClearance < rightClearance`, `-0.7` when `forwardClearance < 40`
otherwise, else `0`. -/
def specPanic (forwardClearance leftClearance rightClearance : ℚ) : ℚ :=
  if forwardClearance < 40 then (if leftClearance < rightClearance then 0.7 else -0.7) else 0

/-! Concrete environments and states used by counterexamples and witnesses. -/

/-- A neutral environment: no sight, clear walls at 100px, inert collaborators. -/
def exEnvNeutral : Env :=
  { playerX := 0, playerY := 0, angleTo := fun _ _ _ _ => 0, angDiff := fun _ _ => 0,
    hasLineOfSight := fun _ _ _ _ => false, navWaypoint := fun _ _ => none,
    distanceToWall := fun _ _ _ _ => 100, hypot := fun _ _ => 0, rand := 0,
    canFire := false, updateMovement := fun _ _ _ _ _ e => e }

/-- An agent at the origin facing angle 0. -/
def exEnemy0 : Enemy := ⟨0, 0, 0⟩

/-- A state with 0.1s left on the hold-fire timer and everything else zero. -/
def exStHold : AIState :=
  { hasSight := false, holdFire := 1/10, unstick := 0, unstickDir := 0,
    progress := 0, lastX := 0, lastY := 0 }

/-- Environment with line of sight and a mid-range random draw, for the
edge-trigger witness. -/
def exEnvSight : Env :=
  { exEnvNeutral with hasLineOfSight := fun _ _ _ _ => true, rand := 1/2 }

/-- Environment in which the agent faces a wall dead ahead, the right ray is
clear and the facing error is 1 rad: every steering term saturates positive. -/
def exEnvPanic : Env :=
  { exEnvNeutral with
    angDiff := fun _ _ => 1,
    hasLineOfSight := fun _ _ _ _ => true,
    distanceToWall := fun _ _ a _ => if a > 0 then 180 else 0 }

/-! ### `spawnMoreEnemies` (function.js lines 158-194)

The spawned actor: `new TankClass(s.x, s.y, c)` followed by the two field
assignments of lines 191-192.  The class constructor is the factory `mk`.
The JS `color` parameter is either a string or a list; line 164 normalises it
to a list, so the embedding takes the list directly.  `count` is an integer
here (`for (let i = 0; i < count; i++)` runs `max count 0` times).
The source body contains no `throw`, so the `Except` result — the shape a
fallible constructor would have — is always `Except.ok`. -/

/-- Actor record with the fields `spawnMoreEnemies` writes. -/
structure Tank where
  x : ℚ
  y : ℚ
  color : String
  turnSpeed : ℚ
  angle : ℚ
  deriving Repr, DecidableEq

/-- Default color cycle (function.js line 162). -/
def defaultColors : List String := ["#f472b6", "#f59e0b", "#60a5fa", "#a78bfa"]

/-- The eight fixed spawn points (function.js lines 169-178). -/
def spawnsOf (W H : ℚ) : List (ℚ × ℚ) :=
  [(0.85 * W, 0.15 * H), (0.85 * W, 0.85 * H), (0.15 * W, 0.15 * H),
   (0.15 * W, 0.85 * H), (0.50 * W, 0.15 * H), (0.85 * W, 0.50 * H),
   (0.50 * W, 0.85 * H), (0.15 * W, 0.50 * H)]

/-- Lines 185-188: `while (!canOccupy(s.x, s.y, 20) && tries++ < spawns.length)
\x7b s = spawns[si++ % spawns.length]; \x7d`, with `fuel = spawns.length` bounding
the retries exactly as `tries` does. Returns the chosen point and the final `si`. -/
def retryLoop (canOccupy : ℚ → ℚ → ℚ → Bool) (spawns : List (ℚ × ℚ)) :
    ℕ → (ℚ × ℚ) → ℕ → (ℚ × ℚ) × ℕ
  | 0, s, si => (s, si)
  | fuel + 1, s, si =>
    if canOccupy s.1 s.2 20 then (s, si)
    else retryLoop canOccupy spawns fuel (spawns.getD (si % spawns.length) (0, 0)) (si + 1)

/-- The spawn loop of lines 180-194, threading the color index `i` and the
spawn cursor `si`. -/
def spawnMany (mk : ℚ → ℚ → String → Tank) (angleTo : ℚ → ℚ → ℚ → ℚ → ℚ)
    (W H : ℚ) (canOccupy : Option (ℚ → ℚ → ℚ → Bool)) (colors : List String)
    (spawns : List (ℚ × ℚ)) : ℕ → ℕ → ℕ → List Tank
  | 0, _, _ => []
  | n + 1, i, si =>
    let c := colors.getD (i % colors.length) ""
    let s := spawns.getD (si % spawns.length) (0, 0)
    let ssi : (ℚ × ℚ) × ℕ :=
      match canOccupy with
      | some f => retryLoop f spawns spawns.length s (si + 1)
      | none => (s, si + 1)
    let t0 := mk ssi.1.1 ssi.1.2 c
    let t : Tank := { t0 with turnSpeed := 1.8, angle := angleTo t0.x t0.y (W * 0.5) (H * 0.5) }
    t :: spawnMany mk angleTo W H canOccupy colors spawns n (i + 1) ssi.2

/-- `spawnMoreEnemies(count, TankClass, env, color)` (lines 158-194): builds the
enemies list; the per-frame updater it returns alongside is `updateAllAI` above.
The body performs no argument validation and contains no `throw`, so the
result is always `Except.ok`. -/
def spawnMoreEnemies (count : ℤ) (mk : ℚ → ℚ → String → Tank)
    (W H : ℚ) (angleTo : ℚ → ℚ → ℚ → ℚ → ℚ)
    (canOccupy : Option (ℚ → ℚ → ℚ → Bool))
    (colors : List String := defaultColors) : Except String (List Tank) :=
  Except.ok (spawnMany mk angleTo W H canOccupy colors (spawnsOf W H) count.toNat 0 0)

/-! ### The three patch installers (lines 13-26, 42-96, 110-137)

A JS class is a record of its prototype methods plus the guard property the
installer writes.  The `typeof TankClass !== 'function'` check corresponds to
the `none` case of the `Option` argument (a non-invocable value); the
`typeof b.vx === 'number'` checks hold by typing in the embedding. -/

/-- A bullet: the fields the patched code reads/writes.  `bounces` models the
`_bounces` property, which is absent (`undefined`) until first initialised. -/
structure BulletS where
  x : ℚ
  y : ℚ
  vx : ℚ
  vy : ℚ
  life : ℚ
  alive : Bool
  bounces : Option ℕ
  deriving Repr, DecidableEq

/-- A pixel rectangle as returned by `wallPx`. -/
structure Rect where
  x : ℚ
  y : ℚ
  w : ℚ
  h : ℚ
  deriving Repr, DecidableEq

/-- The `Tank` class as `increaseBulletSpeed` sees it: the `fire` prototype
method (`this` is the actor; the argument list is untouched and omitted) and
the `__orig_fire_fastpatch` guard property. -/
structure TankClassS where
  fire : Enemy → Option BulletS
  origFireFastpatch : Option (Enemy → Option BulletS)

/-- Body of `increaseBulletSpeed` after the invocability check (lines 15-25). -/
def increaseBulletSpeedCore (factor : ℚ) (C : TankClassS) : TankClassS :=
  if C.origFireFastpatch.isSome then C
  else
    { fire := fun t => (C.fire t).map (fun b => { b with vx := b.vx * factor, vy := b.vy * factor }),
      origFireFastpatch := some C.fire }

/-- `increaseBulletSpeed(TankClass, factor = 2)` (lines 13-26). -/
def increaseBulletSpeed (TC : Option TankClassS) (factor : ℚ := 2) :
    Except String TankClassS :=
  match TC with
  | none => Except.error "increaseBulletSpeed: invalid TankClass"
  | some C => Except.ok (increaseBulletSpeedCore factor C)

/-- Environment bridged to `enableBouncingBullets`; `μ` is the maze-entry type
(opaque here, read only through `wallPx`).  `spawnExplosion`/`playSFX` are
optional visual/audio effects with no bearing on bullet state and are omitted. -/
structure BEnv (μ : Type) where
  maze : List μ
  wallPx : μ → Rect
  segRectIntersects : (ℚ × ℚ) → (ℚ × ℚ) → ℚ → ℚ → ℚ → ℚ → Bool
  canvasW : ℚ
  canvasH : ℚ

/-- The replacement `Bullet.prototype.update` installed by
`enableBouncingBullets` (lines 51-95). -/
def bulletUpdatePatched {μ : Type} (env : BEnv μ) (maxBounces : ℕ) (dt : ℚ)
    (b0 : BulletS) : BulletS :=
  if !b0.alive then b0 else
  let b := { b0 with bounces := some (b0.bounces.getD 0) }
  let nx := b.x + b.vx * dt
  let ny := b.y + b.vy * dt
  let hit := env.maze.find? fun m =>
    let r := env.wallPx m
    env.segRectIntersects (b.x, b.y) (nx, ny) r.x r.y r.w r.h
  let vb : ℚ × ℚ × ℕ × Bool :=
    match hit with
    | some m =>
      let r := env.wallPx m
      let cx := clampJ b.x r.x (r.x + r.w)
      let cy := clampJ b.y r.y (r.y + r.h)
      let hitVertical := |cx - b.x| > |cy - b.y|
      (if hitVertical then -b.vx else b.vx, if hitVertical then b.vy else -b.vy,
       b.bounces.getD 0 + 1, true)
    | none =>
      let bx := nx < 0 ∨ nx > env.canvasW
      let by' := ny < 0 ∨ ny > env.canvasH
      (if bx then -b.vx else b.vx, if by' then -b.vy else b.vy,
       b.bounces.getD 0, bx ∨ by')
  let vx := vb.1
  let vy := vb.2.1
  let bounces := vb.2.2.1
  let bounced := vb.2.2.2
  let nx1 := if bounced then b.x + vx * dt else nx
  let ny1 := if bounced then b.y + vy * dt else ny
  let life := b.life - dt
  { x := nx1, y := ny1, vx := vx, vy := vy, life := life,
    alive := !(life ≤ 0 ∨ bounces ≥ maxBounces), bounces := some bounces }

/-- The `Bullet` class as `enableBouncingBullets` sees it. -/
structure BulletClassS (μ : Type) where
  update : ℚ → BulletS → BulletS
  origUpdateBouncepatch : Option (ℚ → BulletS → BulletS)

/-- Body of `enableBouncingBullets` after the invocability check (lines 48-95). -/
def enableBouncingBulletsCore {μ : Type} (env : BEnv μ) (maxBounces : ℕ)
    (C : BulletClassS μ) : BulletClassS μ :=
  if C.origUpdateBouncepatch.isSome then C
  else
    { update := bulletUpdatePatched env maxBounces,
      origUpdateBouncepatch := some C.update }

/-- `enableBouncingBullets(BulletClass, env, maxBounces = 3)` (lines 42-96). -/
def enableBouncingBullets {μ : Type} (BC : Option (BulletClassS μ)) (env : BEnv μ)
    (maxBounces : ℕ := 3) : Except String (BulletClassS μ) :=
  match BC with
  | none => Except.error "enableBouncingBullets: invalid BulletClass"
  | some C => Except.ok (enableBouncingBulletsCore env maxBounces C)

/-- A maze wall for `enableDeadlyWalls`: opaque payload plus the `deadly` flag
the installer writes. -/
structure WallM (π : Type) where
  payload : π
  deadly : Bool

/-- Tank actor fields read by the deadly-walls patch. -/
structure TankA where
  x : ℚ
  y : ℚ
  radius : ℚ
  deriving Repr, DecidableEq

/-- Environment bridged to `enableDeadlyWalls`.  `onTankKilled` is the
caller's callback; its effect on the tank it receives is the function itself. -/
structure DEnv (π : Type) where
  wallPx : WallM π → Rect
  circleRectCollision : ℚ → ℚ → ℚ → ℚ → ℚ → ℚ → ℚ → Bool
  onTankKilled : TankA → TankA

/-- The `deadly` argument of `enableDeadlyWalls`: an index array, a predicate,
or anything else (line 117/119's failed `Array.isArray` / `typeof` tests). -/
inductive DeadlySpec (π : Type) where
  | byIndex : List ℤ → DeadlySpec π
  | byPred : (WallM π → ℕ → Bool) → DeadlySpec π
  | other : DeadlySpec π

/-- Lines 117-121: tag `deadly` flags on the maze. -/
def markDeadly {π : Type} : DeadlySpec π → List (WallM π) → List (WallM π)
  | .byIndex l, maze =>
    l.foldl (fun mz (i : ℤ) =>
      if i < 0 then mz
      else
        match mz.get? i.toNat with
        | some m => mz.set i.toNat { m with deadly := true }
        | none => mz) maze
  | .byPred p, maze => maze.mapIdx fun i m => if p m i then { m with deadly := true } else m
  | .other, maze => maze

/-- The `Tank` class as `enableDeadlyWalls` sees it: the `updateMovement`
prototype method and the `__orig_update_move_deadlypatch` guard property. -/
structure TankClassM (π : Type) where
  updateMovement : ℚ → Bool → Bool → Bool → Bool → TankA → TankA
  origUpdateMoveDeadlypatch : Option (ℚ → Bool → Bool → Bool → Bool → TankA → TankA)

/-- Body of `enableDeadlyWalls` after the invocability check (lines 116-136):
first the maze tagging, then the guarded method patch.  The patched method
runs the original movement, then calls `onTankKilled` on the first deadly wall
the tank overlaps (the loop `break`s after the first hit). -/
def enableDeadlyWallsCore {π : Type} (env : DEnv π) (spec : DeadlySpec π)
    (maze : List (WallM π)) (C : TankClassM π) : List (WallM π) × TankClassM π :=
  let maze1 := markDeadly spec maze
  if C.origUpdateMoveDeadlypatch.isSome then (maze1, C)
  else
    (maze1,
     { updateMovement := fun dt a b c d t =>
         let t1 := C.updateMovement dt a b c d t
         let hit := maze1.find? fun m =>
           m.deadly &&
             (let r := env.wallPx m
              env.circleRectCollision t1.x t1.y t1.radius r.x r.y r.w r.h)
         match hit with
         | some _ => env.onTankKilled t1
         | none => t1,
       origUpdateMoveDeadlypatch := some C.updateMovement })

/-- `enableDeadlyWalls(TankClass, env, deadly)` (lines 110-137). -/
def enableDeadlyWalls {π : Type} (TC : Option (TankClassM π)) (env : DEnv π)
    (spec : DeadlySpec π) (maze : List (WallM π)) :
    Except String (List (WallM π) × TankClassM π) :=
  match TC with
  | none => Except.error "enableDeadlyWalls: invalid TankClass"
  | some C => Except.ok (enableDeadlyWallsCore env spec maze C)

/-! More concrete inputs, for the spawn and patcher claims. -/

/-- Trivial actor factory for the spawn counterexample. -/
def exMk : ℚ → ℚ → String → Tank := fun x y c => ⟨x, y, c, 1, 0⟩

/-- Trivial bearing function for the spawn counterexample. -/
def exAngleTo : ℚ → ℚ → ℚ → ℚ → ℚ := fun _ _ _ _ => 0

/-- An unpatched `Tank` class whose `fire` emits one unit-velocity bullet. -/
def exTankClassS : TankClassS :=
  { fire := fun _ => some ⟨0, 0, 1, 1, 1, true, none⟩, origFireFastpatch := none }

/-- A trivial bounce environment over an empty maze. -/
def exBEnv : BEnv Unit :=
  { maze := [], wallPx := fun _ => ⟨0, 0, 0, 0⟩,
    segRectIntersects := fun _ _ _ _ _ _ => false, canvasW := 100, canvasH := 100 }

/-- An unpatched `Bullet` class with an inert `update`. -/
def exBulletClassS : BulletClassS Unit :=
  { update := fun _ b => b, origUpdateBouncepatch := none }

/-- A trivial deadly-walls environment. -/
def exDEnv : DEnv Unit :=
  { wallPx := fun _ => ⟨0, 0, 0, 0⟩, circleRectCollision := fun _ _ _ _ _ _ _ => false,
    onTankKilled := fun t => t }

/-- An unpatched `Tank` class with an inert `updateMovement`. -/
def exTankClassM : TankClassM Unit :=
  { updateMovement := fun _ _ _ _ _ t => t, origUpdateMoveDeadlypatch := none }

/-! ## Helper lemmas -/

lemma holdFirePhase_progress (sight : Bool) (r dt : ℚ) (st : AIState) :
    (holdFirePhase sight r dt st).progress = st.progress := by
  simp only [holdFirePhase]; split_ifs <;> rfl

lemma holdFirePhase_unstick (sight : Bool) (r dt : ℚ) (st : AIState) :
    (holdFirePhase sight r dt st).unstick = st.unstick := by
  simp only [holdFirePhase]; split_ifs <;> rfl

lemma holdFirePhase_unstickDir (sight : Bool) (r dt : ℚ) (st : AIState) :
    (holdFirePhase sight r dt st).unstickDir = st.unstickDir := by
  simp only [holdFirePhase]; split_ifs <;> rfl

lemma progressPhase_holdFire (dt moved fwdFeel : ℚ) (g : Bool) (st : AIState) :
    (progressPhase dt moved fwdFeel g st).holdFire = st.holdFire := by
  simp only [progressPhase]; split_ifs <;> rfl

lemma progressPhase_unstick (dt moved fwdFeel : ℚ) (g : Bool) (st : AIState) :
    (progressPhase dt moved fwdFeel g st).unstick = st.unstick := by
  simp only [progressPhase]; split_ifs <;> rfl

lemma progressPhase_unstickDir (dt moved fwdFeel : ℚ) (g : Bool) (st : AIState) :
    (progressPhase dt moved fwdFeel g st).unstickDir = st.unstickDir := by
  simp only [progressPhase]; split_ifs <;> rfl

lemma unstickTrigger_holdFire (l r : ℚ) (st : AIState) :
    (unstickTrigger l r st).holdFire = st.holdFire := by
  simp only [unstickTrigger]; split_ifs <;> rfl

lemma movePhase_fst_holdFire (dt f : ℚ) (tl tr gf gb : Bool) (st : AIState) :
    ((movePhase dt f tl tr gf gb st).1).holdFire = st.holdFire := by
  simp only [movePhase]; split_ifs <;> rfl

lemma movePhase_fst_progress (dt f : ℚ) (tl tr gf gb : Bool) (st : AIState) :
    ((movePhase dt f tl tr gf gb st).1).progress = st.progress := by
  simp only [movePhase]; split_ifs <;> rfl

lemma movePhase_fst_unstick (dt f : ℚ) (tl tr gf gb : Bool) (st : AIState) :
    ((movePhase dt f tl tr gf gb st).1).unstick =
      if st.unstick > 0 then st.unstick - dt else st.unstick := by
  simp only [movePhase]; split_ifs <;> rfl

lemma movePhase_snd (dt f : ℚ) (tl tr gf gb : Bool) (st : AIState) :
    (movePhase dt f tl tr gf gb st).2 =
      if st.unstick > 0 then
        ⟨dt, decide (st.unstickDir < 0), decide (st.unstickDir > 0),
         decide (f > 30), decide (f ≤ 20)⟩
      else ⟨dt, tl, tr, gf, gb⟩ := by
  simp only [movePhase]; split_ifs <;> rfl

lemma updateOne_st_holdFire (env : Env) (dt : ℚ) (e : Enemy) (s : AIState) :
    (updateOne env dt e s).st.holdFire =
      (holdFirePhase (env.hasLineOfSight e.x e.y env.playerX env.playerY)
        env.rand dt s).holdFire := by
  simp only [updateOne, movePhase_fst_holdFire, unstickTrigger_holdFire, progressPhase_holdFire]

lemma updateOne_st_progress (env : Env) (dt : ℚ) (e : Enemy) (s : AIState) :
    (updateOne env dt e s).st.progress = (preMoveState env dt e s).progress := by
  simp only [updateOne, preMoveState, movePhase_fst_progress]

lemma updateOne_st_unstick (env : Env) (dt : ℚ) (e : Enemy) (s : AIState) :
    (updateOne env dt e s).st.unstick =
      if (preMoveState env dt e s).unstick > 0 then (preMoveState env dt e s).unstick - dt
      else (preMoveState env dt e s).unstick := by
  simp only [updateOne, preMoveState, movePhase_fst_unstick]

lemma updateOne_moveCall (env : Env) (dt : ℚ) (e : Enemy) (s : AIState) :
    (updateOne env dt e s).moveCall =
      if (preMoveState env dt e s).unstick > 0 then
        ⟨dt, decide ((preMoveState env dt e s).unstickDir < 0),
         decide ((preMoveState env dt e s).unstickDir > 0),
         decide (env.distanceToWall e.x e.y e.angle 160 > 30),
         decide (env.distanceToWall e.x e.y e.angle 160 ≤ 20)⟩
      else
        ⟨dt, decide (steerOf env e < -0.06), decide (steerOf env e > 0.06),
         decide (env.distanceToWall e.x e.y e.angle 160 > 24), false⟩ := by
  simp only [updateOne, preMoveState, steerOf, movePhase_snd]

lemma updateOne_fireCount (env : Env) (dt : ℚ) (e : Enemy) (s : AIState) :
    (updateOne env dt e s).fireCount =
      if env.hasLineOfSight e.x e.y env.playerX env.playerY = true ∧
          (updateOne env dt e s).st.holdFire ≤ 0 ∧ env.canFire = true ∧
          |env.angDiff e.angle (env.angleTo e.x e.y env.playerX env.playerY)| < (0.15 : ℚ)
      then 1 else 0 := by
  simp only [updateOne]

/-! ## Claim theorems -/

/-- C1: per tick, `fire()` is invoked (exactly once: the tick's fire count is
1) iff sight holds, the post-decrement `holdFireTimer` is ≤ 0, `canFire()`
returned true, and the absolute facing error to the true target is < 0.15 rad;
in particular with `holdFireTimer > 0` it is never invoked. -/
theorem fire_decision_iff (env : Env) (dt : ℚ) (e : Enemy) (s : AIState) :
    ((updateOne env dt e s).fireCount = 1 ↔
      (env.hasLineOfSight e.x e.y env.playerX env.playerY = true ∧
       (updateOne env dt e s).st.holdFire ≤ 0 ∧ env.canFire = true ∧
       |env.angDiff e.angle (env.angleTo e.x e.y env.playerX env.playerY)| < (0.15 : ℚ))) ∧
    ((updateOne env dt e s).st.holdFire > 0 → (updateOne env dt e s).fireCount = 0) := by
  rw [updateOne_fireCount]
  constructor
  · split_ifs with h
    · simp [h]
    · simp [h]
  · intro hpos
    split_ifs with h
    · exact absurd h.2.1 (by linarith)
    · rfl

/-- C2: with a random draw `r ∈ [0,1)`, a false→true line-of-sight transition
resets `holdFireTimer` to `0.9 + r*0.7 ∈ [0.9, 1.6)` (the tick then applies the
usual decrement to the fresh value); without such a transition the timer is
never reset, only decremented by `dt` while positive. -/
theorem holdFire_edge_trigger (env : Env) (dt : ℚ) (e : Enemy) (s : AIState)
    (hr0 : 0 ≤ env.rand) (hr1 : env.rand < 1) :
    if env.hasLineOfSight e.x e.y env.playerX env.playerY = true ∧ s.hasSight = false then
      (0.9 : ℚ) ≤ 0.9 + env.rand * 0.7 ∧ (0.9 : ℚ) + env.rand * 0.7 < 1.6 ∧
      (updateOne env dt e s).st.holdFire = 0.9 + env.rand * 0.7 - dt
    else
      (updateOne env dt e s).st.holdFire =
        if s.holdFire > 0 then s.holdFire - dt else s.holdFire := by
  rw [updateOne_st_holdFire]
  by_cases hT : env.hasLineOfSight e.x e.y env.playerX env.playerY = true ∧ s.hasSight = false
  · rw [if_pos hT]
    obtain ⟨h1, h2⟩ := hT
    refine ⟨by nlinarith, by nlinarith, ?_⟩
    have hb : (env.hasLineOfSight e.x e.y env.playerX env.playerY && !s.hasSight) = true := by
      simp [h1, h2]
    have hpos : (0.9 : ℚ) + env.rand * 0.7 > 0 := by nlinarith
    simp only [holdFirePhase, hb, if_true]
    simp [hpos]
  · rw [if_neg hT]
    have hb : (env.hasLineOfSight e.x e.y env.playerX env.playerY && !s.hasSight) = false := by
      rcases Bool.eq_false_or_eq_true (env.hasLineOfSight e.x e.y env.playerX env.playerY)
        with h | h <;> rcases Bool.eq_false_or_eq_true s.hasSight with h' | h' <;>
        simp_all
    simp [holdFirePhase, hb]
    split_ifs <;> rfl

/-- C2 witness: a concrete false→true transition with `r = 1/2` and `dt = 1`. -/
theorem holdFire_edge_trigger_witness :
    0 ≤ exEnvSight.rand ∧ exEnvSight.rand < 1 ∧
    (if exEnvSight.hasLineOfSight exEnemy0.x exEnemy0.y exEnvSight.playerX
          exEnvSight.playerY = true ∧ (initState exEnemy0).hasSight = false then
      (0.9 : ℚ) ≤ 0.9 + exEnvSight.rand * 0.7 ∧ (0.9 : ℚ) + exEnvSight.rand * 0.7 < 1.6 ∧
      (updateOne exEnvSight 1 exEnemy0 (initState exEnemy0)).st.holdFire =
        0.9 + exEnvSight.rand * 0.7 - 1
    else
      (updateOne exEnvSight 1 exEnemy0 (initState exEnemy0)).st.holdFire =
        if (initState exEnemy0).holdFire > 0 then (initState exEnemy0).holdFire - 1
        else (initState exEnemy0).holdFire) :=
  ⟨by norm_num [exEnvSight, exEnvNeutral], by norm_num [exEnvSight, exEnvNeutral],
   holdFire_edge_trigger exEnvSight 1 exEnemy0 (initState exEnemy0)
     (by norm_num [exEnvSight, exEnvNeutral]) (by norm_num [exEnvSight, exEnvNeutral])⟩

/-- C4: `progressTimer` accumulates by `dt` exactly when `goForward` holds, the
measured displacement is `< 8*dt`, and `forwardClearance < 50`, and resets to 0
otherwise; when the accumulated value exceeds 0.6 the unstick maneuver starts:
`stuckTimer` set to 0.5, `unstickDirection` to +1 iff the left ray is shorter,
and `progressTimer` reset to 0. -/
theorem stuck_detection_trigger (env : Env) (dt : ℚ) (e : Enemy) (s : AIState) :
    let leftFeel := env.distanceToWall e.x e.y (e.angle - 0.8) 180
    let rightFeel := env.distanceToWall e.x e.y (e.angle + 0.8) 180
    let fwdFeel := env.distanceToWall e.x e.y e.angle 160
    let stA := holdFirePhase (env.hasLineOfSight e.x e.y env.playerX env.playerY)
      env.rand dt s
    let moved := env.hypot (e.x - stA.lastX) (e.y - stA.lastY)
    let p1 : ℚ :=
      if fwdFeel > 24 ∧ moved < 8 * dt ∧ fwdFeel < 50 then s.progress + dt else 0
    ((preMoveState env dt e s).progress = if p1 > 0.6 then 0 else p1) ∧
    ((preMoveState env dt e s).unstick = if p1 > 0.6 then 0.5 else s.unstick) ∧
    ((preMoveState env dt e s).unstickDir =
      if p1 > 0.6 then (if leftFeel < rightFeel then 1 else -1) else s.unstickDir) := by
  simp only [preMoveState, unstickTrigger, progressPhase, holdFirePhase_progress,
    holdFirePhase_unstick, holdFirePhase_unstickDir, decide_eq_true_eq]
  split_ifs <;> simp_all [holdFirePhase_progress, holdFirePhase_unstick,
    holdFirePhase_unstickDir]

/-- C7: while `stuckTimer > 0` (checked after the trigger phase) the tick
decrements it by `dt` and issues the unstick movement call, overriding the
steering flags; otherwise the steering-derived flags are issued and the timer
is untouched. -/
theorem movement_override (env : Env) (dt : ℚ) (e : Enemy) (s : AIState) :
    let fwdFeel := env.distanceToWall e.x e.y e.angle 160
    let stC := preMoveState env dt e s
    ((updateOne env dt e s).moveCall =
      if stC.unstick > 0 then
        ⟨dt, decide (stC.unstickDir < 0), decide (stC.unstickDir > 0),
         decide (fwdFeel > 30), decide (fwdFeel ≤ 20)⟩
      else
        ⟨dt, decide (steerOf env e < -0.06), decide (steerOf env e > 0.06),
         decide (fwdFeel > 24), false⟩) ∧
    ((updateOne env dt e s).st.unstick =
      if stC.unstick > 0 then stC.unstick - dt else stC.unstick) :=
  ⟨updateOne_moveCall env dt e s, updateOne_st_unstick env dt e s⟩

/-- C8: the steering target is the bearing to the true target when sight
holds; with no sight it is the bearing to the navigation waypoint when one
exists, and falls back to the bearing to the true target otherwise. -/
theorem steer_target_selection (env : Env) (e : Enemy) :
    steerTarget env e (env.hasLineOfSight e.x e.y env.playerX env.playerY)
        (env.angleTo e.x e.y env.playerX env.playerY) =
      if env.hasLineOfSight e.x e.y env.playerX env.playerY = true then
        env.angleTo e.x e.y env.playerX env.playerY
      else
        match env.navWaypoint e.x e.y with
        | some wp => env.angleTo e.x e.y wp.1 wp.2
        | none => env.angleTo e.x e.y env.playerX env.playerY := by
  cases hb : env.hasLineOfSight e.x e.y env.playerX env.playerY <;>
    simp [steerTarget, hb]

lemma clampJ_abs_le (v a : ℚ) (ha : 0 ≤ a) : |clampJ v (-a) a| ≤ a := by
  rw [abs_le]
  exact ⟨le_max_left _ _, max_le (by linarith) (min_le_left _ _)⟩

/-- C3: on a normal tick the steering scalar is exactly `base + avoidance +
panic` with the spec's three terms, the sum is never re-clamped but is bounded
by 2.2 in magnitude, and 2.2 (> 0.8) is attained in a concrete environment. -/
theorem steer_composition_bounds :
    (∀ (env : Env) (e : Enemy) (t l r f : ℚ),
      steerValue env e t l r f = specBase env e t + specAvoidance r l + specPanic f l r ∧
      |steerValue env e t l r f| ≤ 2.2) ∧
    steerOf exEnvPanic exEnemy0 = 2.2 ∧ (0.8 : ℚ) < 2.2 := by
  refine ⟨fun env e t l r f => ⟨rfl, ?_⟩, ?_, by norm_num⟩
  · have hA : |specBase env e t| ≤ 0.8 := by
      unfold specBase; exact clampJ_abs_le _ _ (by norm_num)
    have hB : |specAvoidance r l| ≤ 0.7 := by
      unfold specAvoidance; exact clampJ_abs_le _ _ (by norm_num)
    have hC : |specPanic f l r| ≤ 0.7 := by
      unfold specPanic; split_ifs <;> rw [abs_le] <;> constructor <;> norm_num
    have habc : steerValue env e t l r f =
        specBase env e t + specAvoidance r l + specPanic f l r := rfl
    rw [habc]
    have k1 := abs_add (specBase env e t + specAvoidance r l) (specPanic f l r)
    have k2 := abs_add (specBase env e t) (specAvoidance r l)
    linarith
  · norm_num [steerOf, steerValue, steerTarget, clampJ, min_def, max_def,
      exEnvPanic, exEnvNeutral, exEnemy0]

/-- C5 counterexample: with `dt = 1` and 0.1s left on the hold-fire timer, the
post-tick `holdFireTimer` is negative, refuting the all-fields-non-negative
invariant. -/
theorem timers_nonneg_counterexample :
    (updateOne exEnvNeutral 1 exEnemy0 exStHold).st.holdFire < 0 := by
  norm_num [updateOne, holdFirePhase, progressPhase, unstickTrigger, movePhase,
    steerTarget, steerValue, clampJ, exEnvNeutral, exEnemy0, exStHold]

/-- C5 amended: after a tick with `dt > 0` and a non-negative random draw,
`progressTimer` stays non-negative, while `holdFireTimer` and `stuckTimer` may
drop below zero but stay above `-dt` whenever they were above `-dt` before
(they are only decremented by `dt` while positive, or reset to a positive
value and then decremented once). -/
theorem timers_lower_bounds (env : Env) (dt : ℚ) (e : Enemy) (s : AIState)
    (hdt : 0 < dt) (hr : 0 ≤ env.rand) (hp : 0 ≤ s.progress)
    (hh : -dt < s.holdFire) (hu : -dt < s.unstick) :
    0 ≤ (updateOne env dt e s).st.progress ∧
    -dt < (updateOne env dt e s).st.holdFire ∧
    -dt < (updateOne env dt e s).st.unstick := by
  refine ⟨?_, ?_, ?_⟩
  · rw [updateOne_st_progress]
    simp only [preMoveState, unstickTrigger, progressPhase, holdFirePhase_progress]
    split_ifs <;> simp_all <;> linarith
  · rw [updateOne_st_holdFire]
    simp only [holdFirePhase]
    split_ifs <;> simp_all <;> nlinarith
  · rw [updateOne_st_unstick]
    simp only [preMoveState, unstickTrigger, progressPhase, holdFirePhase_unstick]
    split_ifs <;> simp_all <;> linarith

/-- C5 witness: the amended bounds instantiated at a fresh agent state with
`dt = 1`. -/
theorem timers_lower_bounds_witness :
    (0 : ℚ) < 1 ∧ 0 ≤ exEnvNeutral.rand ∧ 0 ≤ (initState exEnemy0).progress ∧
    -(1 : ℚ) < (initState exEnemy0).holdFire ∧ -(1 : ℚ) < (initState exEnemy0).unstick ∧
    (0 ≤ (updateOne exEnvNeutral 1 exEnemy0 (initState exEnemy0)).st.progress ∧
     -(1 : ℚ) < (updateOne exEnvNeutral 1 exEnemy0 (initState exEnemy0)).st.holdFire ∧
     -(1 : ℚ) < (updateOne exEnvNeutral 1 exEnemy0 (initState exEnemy0)).st.unstick) :=
  ⟨by norm_num, by norm_num [exEnvNeutral], by norm_num [initState],
   by norm_num [initState], by norm_num [initState],
   timers_lower_bounds exEnvNeutral 1 exEnemy0 (initState exEnemy0)
     (by norm_num) (by norm_num [exEnvNeutral]) (by norm_num [initState])
     (by norm_num [initState]) (by norm_num [initState])⟩

lemma spawnMany_length (mk : ℚ → ℚ → String → Tank) (ang : ℚ → ℚ → ℚ → ℚ → ℚ)
    (W H : ℚ) (co : Option (ℚ → ℚ → ℚ → Bool)) (colors : List String)
    (spawns : List (ℚ × ℚ)) :
    ∀ n i si, (spawnMany mk ang W H co colors spawns n i si).length = n := by
  intro n
  induction n with
  | zero => intro i si; rfl
  | succ n ih => intro i si; simp only [spawnMany, List.length_cons, ih]

/-- C6 counterexample: with `count = 0` — not a positive quantity —
`spawnMoreEnemies` does not report an invalid-argument condition; it returns
normally with an empty enemies list. -/
theorem spawn_zero_count_no_error :
    spawnMoreEnemies 0 exMk 100 100 exAngleTo none = Except.ok [] := rfl

/-- C6 amended: `spawnMoreEnemies` performs no argument validation and never
reports an invalid-argument condition: for every count, factory and
environment it returns the enemies list (and the per-frame updater) normally,
with `max count 0` enemies — in particular an empty list, not an error, when
`count ≤ 0` — and the spawn-point list is a fixed non-empty array of 8
entries, so "no spawn points available" cannot arise. -/
theorem spawn_never_fails (count : ℤ) (mk : ℚ → ℚ → String → Tank) (W H : ℚ)
    (ang : ℚ → ℚ → ℚ → ℚ → ℚ) (co : Option (ℚ → ℚ → ℚ → Bool))
    (colors : List String) :
    ∃ l, spawnMoreEnemies count mk W H ang co colors = Except.ok l ∧
      l.length = count.toNat ∧ (spawnsOf W H).length = 8 :=
  ⟨_, rfl, spawnMany_length mk ang W H co colors (spawnsOf W H) count.toNat 0 0, rfl⟩

/-- C9: the per-frame batch update processes each managed pair exactly once
and position `i` of the output depends only on position `i` of the input via
the single-agent step — no cross-agent interaction; the target and the
environment are read-only inputs. -/
theorem updateAll_pointwise (env : Env) (dt : ℚ) (agents : List (Enemy × AIState)) :
    (updateAllAI env dt agents).length = agents.length ∧
    ∀ i : ℕ, (updateAllAI env dt agents).get? i = (agents.get? i).map (stepAgent env dt) := by
  induction agents with
  | nil => exact ⟨rfl, fun i => by simp [updateAllAI]⟩
  | cons a rest ih =>
    refine ⟨by simp [updateAllAI, ih.1], fun i => ?_⟩
    cases i with
    | zero => simp [updateAllAI]
    | succ n => simpa [updateAllAI] using ih.2 n

/-- C10: each installer is idempotent on the class — once patched, a repeated
call leaves the patched method unchanged (the guard flag short-circuits) — and
applying `increaseBulletSpeed` twice with factor `f` still multiplies bullet
velocity by `f` once, not `f²`. -/
theorem patch_install_idempotent {μ π : Type} (f : ℚ) (C : TankClassS) (t : Enemy)
    (benv : BEnv μ) (mb : ℕ) (BC : BulletClassS μ) (denv : DEnv π)
    (sp : DeadlySpec π) (mz : List (WallM π)) (TCM : TankClassM π)
    (hC : C.origFireFastpatch = none) :
    increaseBulletSpeedCore f (increaseBulletSpeedCore f C) = increaseBulletSpeedCore f C ∧
    (increaseBulletSpeedCore f (increaseBulletSpeedCore f C)).fire t =
      (C.fire t).map (fun b => { b with vx := b.vx * f, vy := b.vy * f }) ∧
    enableBouncingBulletsCore benv mb (enableBouncingBulletsCore benv mb BC) =
      enableBouncingBulletsCore benv mb BC ∧
    ((enableDeadlyWallsCore denv sp (enableDeadlyWallsCore denv sp mz TCM).1
        (enableDeadlyWallsCore denv sp mz TCM).2).2).updateMovement =
      ((enableDeadlyWallsCore denv sp mz TCM).2).updateMovement := by
  have h1 : increaseBulletSpeedCore f C =
      { fire := fun t => (C.fire t).map (fun b => { b with vx := b.vx * f, vy := b.vy * f }),
        origFireFastpatch := some C.fire } := by
    simp [increaseBulletSpeedCore, hC]
  refine ⟨?_, ?_, ?_, ?_⟩
  · rw [h1]; simp [increaseBulletSpeedCore]
  · rw [h1]; simp [increaseBulletSpeedCore]
  · rcases hB : BC.origUpdateBouncepatch with _ | u <;>
      simp [enableBouncingBulletsCore, hB]
  · rcases hT : TCM.origUpdateMoveDeadlypatch with _ | u <;>
      simp [enableDeadlyWallsCore, hT]

/-- C10 witness: the three installers applied twice to concrete unpatched
classes. -/
theorem patch_install_idempotent_witness :
    exTankClassS.origFireFastpatch = none ∧
    (increaseBulletSpeedCore 2 (increaseBulletSpeedCore 2 exTankClassS) =
       increaseBulletSpeedCore 2 exTankClassS ∧
     (increaseBulletSpeedCore 2 (increaseBulletSpeedCore 2 exTankClassS)).fire exEnemy0 =
       (exTankClassS.fire exEnemy0).map (fun b => { b with vx := b.vx * 2, vy := b.vy * 2 }) ∧
     enableBouncingBulletsCore exBEnv 3 (enableBouncingBulletsCore exBEnv 3 exBulletClassS) =
       enableBouncingBulletsCore exBEnv 3 exBulletClassS ∧
     ((enableDeadlyWallsCore exDEnv DeadlySpec.other
         (enableDeadlyWallsCore exDEnv DeadlySpec.other [] exTankClassM).1
         (enableDeadlyWallsCore exDEnv DeadlySpec.other [] exTankClassM).2).2).updateMovement =
       ((enableDeadlyWallsCore exDEnv DeadlySpec.other [] exTankClassM).2).updateMovement) :=
  ⟨rfl, patch_install_idempotent 2 exTankClassS exEnemy0 exBEnv 3 exBulletClassS
    exDEnv DeadlySpec.other [] exTankClassM rfl⟩

end TankWar
